import Mathlib

/-!
Verification of the course-materials RAG system core: the bounded agent
loop of `backend/ai_generator.py` (`AIGenerator.generate_response` and
`AIGenerator._handle_tool_execution`), and the retrieval stack
(`VectorStore.search`, `CourseSearchTool.execute`, `ToolManager`)
specified in the design document and exercised by the repository tests.

The orchestrator is embedded shallowly: the Anthropic client is an
oracle given as a list of stubbed responses consumed in order, the tool
manager is a function from tool name and arguments to either a result
string or a raised exception message, and each run returns the final
outcome together with the full trace of LLM calls (with the parameters
used) and of the tool invocations actually executed, in order.
-/

namespace RagCore

/-- Keyword arguments of one tool invocation (`content_block.input`),
opaque to the orchestrator, which forwards them unchanged. -/
abbrev ToolArgs := List (String × String)

/-- One content block of an LLM response: a text block, or a tool-use
block carrying the requested tool name, the invocation id and the
arguments (`content_block.type` is `"text"` or `"tool_use"`). -/
inductive CB where
  | text (s : String)
  | toolUse (name id : String) (input : ToolArgs)
deriving DecidableEq, Repr

/-- An LLM response: `stop_reason` together with the content blocks. -/
structure Response where
  stop_reason : String
  content : List CB
deriving DecidableEq, Repr

/-- One `tool_result` entry sent back to the LLM: the originating
invocation id and the tool output. -/
structure ToolResultBlock where
  tool_use_id : String
  content : String
deriving DecidableEq, Repr

/-- A message of the running history: the initial user query, an
assistant message holding the LLM content blocks, or the single
user-role message that bundles one round's tool results. -/
inductive Message where
  | user (content : String)
  | assistant (content : List CB)
  | userToolResults (results : List ToolResultBlock)
deriving DecidableEq, Repr

/-- A tool schema handed to the LLM; opaque to the orchestrator, which
only passes the list through, so it is modelled by its name. -/
structure ToolDef where
  name : String
deriving DecidableEq, Repr

/-- The `tool_choice` parameter; the code only ever uses `{"type": "auto"}`. -/
inductive ToolChoice where
  | auto
deriving DecidableEq, Repr

/-- Parameters of one `client.messages.create` call. The `tools` and
`tool_choice` dictionary keys may be absent (`none`) or present with a
possibly-`None` value (`some v`), which the code distinguishes: the
follow-up call of round 0 always re-inserts the keys via
`base_params.get`, while the final call after round 1 omits them. -/
structure ApiParams where
  messages : List Message
  system : String
  tools : Option (Option (List ToolDef))
  tool_choice : Option (Option ToolChoice)
deriving DecidableEq, Repr

/-- The tool manager: `execute_tool(name, **kwargs)` returning the tool
output, or `Except.error e` when the call raises exception `e`. -/
abbrev ToolExec := String → ToolArgs → Except String String

/-- Outcome of one orchestration call: a returned string, a propagated
tool exception, the `IndexError`/`AttributeError` raised by
`response.content[0].text` when the first block is not a text block,
or exhaustion of the stubbed response oracle (a model artifact). -/
inductive Outcome where
  | ok (s : String)
  | raised (e : String)
  | attrError
  | apiExhausted
deriving DecidableEq, Repr

/-- Trace of one orchestration call: its outcome, the LLM calls issued
(with the parameters used, in order), the tool invocations actually
executed (in order), and the number of tool-execution rounds entered. -/
structure RunResult where
  outcome : Outcome
  calls : List ApiParams
  execs : List (String × ToolArgs)
  rounds : Nat
deriving DecidableEq, Repr

/-- Python `x if x else y` on an optional dictionary value:
`base_params.get(key)` yields the stored value when the key is present
and `None` otherwise. -/
def getKey (o : Option (Option α)) : Option α :=
  o.bind id

/-- Value of `response.content[0].text`: the text of the first block
when it is a text block, otherwise the raised-attribute outcome. -/
def firstText (r : Response) : Outcome :=
  match r.content with
  | CB.text s :: _ => Outcome.ok s
  | _ => Outcome.attrError

/-- The loop over `initial_response.content` (lines 127-141): execute
each tool-use block serially in listed order, recording the invocations
performed; stop at the first raising invocation, returning its
exception, otherwise return the collected `tool_result` entries. -/
def executeToolBlocks (tm : ToolExec) : List CB → List (String × ToolArgs) × Except String (List ToolResultBlock)
  | [] => ([], Except.ok [])
  | CB.text _ :: rest => executeToolBlocks tm rest
  | CB.toolUse name id input :: rest =>
    match tm name input with
    | Except.error e => ([(name, input)], Except.error e)
    | Except.ok r =>
      let (ex, res) := executeToolBlocks tm rest
      ((name, input) :: ex,
        match res with
        | Except.error e => Except.error e
        | Except.ok rs => Except.ok (⟨id, r⟩ :: rs))

/-- The tool invocations requested by a list of content blocks, in the
order the LLM listed them. -/
def requestedInvocations : List CB → List (String × ToolArgs)
  | [] => []
  | CB.text _ :: rest => requestedInvocations rest
  | CB.toolUse name _ input :: rest => (name, input) :: requestedInvocations rest

/-- The invocation ids of the tool-use blocks, in listed order. -/
def requestedIds : List CB → List String
  | [] => []
  | CB.text _ :: rest => requestedIds rest
  | CB.toolUse _ id _ :: rest => id :: requestedIds rest

/-- The fixed apology returned when a round-1 tool invocation raises. -/
def apologyMessage : String :=
  "I encountered an issue while searching for additional information. Please try rephrasing your question."

/-- `AIGenerator._handle_tool_execution` (lines 100-198). The stubbed
client responses still unconsumed are `oracle`; the recursion into the
next round consumes the oracle structurally. Returns the outcome, the
LLM calls issued inside the handler, the tool invocations executed, and
the number of rounds entered (this activation plus any recursion). -/
def handleToolExecution (tm : ToolExec) (systemStr : String)
    (baseTools : Option (Option (List ToolDef)))
    (baseToolChoice : Option (Option ToolChoice))
    (initialResponse : Response) (baseMessages : List Message)
    (currentRound : Nat) (oracle : List Response) : RunResult :=
  let messages := baseMessages ++ [Message.assistant initialResponse.content]
  let (execs, res) := executeToolBlocks tm initialResponse.content
  match res with
  | Except.error e =>
    if currentRound == 0 then
      ⟨Outcome.raised e, [], execs, 1⟩
    else
      ⟨Outcome.ok apologyMessage, [], execs, 1⟩
  | Except.ok toolResults =>
    let messages :=
      if toolResults.isEmpty then messages
      else messages ++ [Message.userToolResults toolResults]
    if currentRound < 1 then
      let nextParams : ApiParams :=
        ⟨messages, systemStr, some (getKey baseTools), some (getKey baseToolChoice)⟩
      match oracle with
      | [] => ⟨Outcome.apiExhausted, [nextParams], execs, 1⟩
      | nextResponse :: oracleRest =>
        if nextResponse.stop_reason == "tool_use" then
          let r := handleToolExecution tm systemStr (some (getKey baseTools))
            (some (getKey baseToolChoice)) nextResponse messages
            (currentRound + 1) oracleRest
          ⟨r.outcome, nextParams :: r.calls, execs ++ r.execs, 1 + r.rounds⟩
        else
          ⟨firstText nextResponse, [nextParams], execs, 1⟩
    else
      let finalParams : ApiParams := ⟨messages, systemStr, none, none⟩
      match oracle with
      | [] => ⟨Outcome.apiExhausted, [finalParams], execs, 1⟩
      | finalResponse :: _ =>
        ⟨firstText finalResponse, [finalParams], execs, 1⟩

/-- The static system prompt (`AIGenerator.SYSTEM_PROMPT`, lines 10-38),
a fixed string the control flow only ever concatenates with the
conversation history. -/
def SYSTEM_PROMPT : String :=
  " You are an AI assistant specialized in course materials and educational content with access to a comprehensive search tool for course information.\n\nSearch Tool Usage:\n- Use the search tool **only** for questions about specific course content or detailed educational materials\n- **Maximum 2 sequential searches per query** - You can search, analyze results, then search again if needed\n- Synthesize search results into accurate, fact-based responses\n- If search yields no results, state this clearly without offering alternatives\n\nMulti-step Reasoning:\n- For complex queries, you may need multiple searches to gather complete information\n- Example: \"Search for course X outline\" → analyze lesson 4 topic → \"Search for courses covering that topic\"\n- Each search builds upon previous results to provide comprehensive answers\n\nResponse Protocol:\n- **General knowledge questions**: Answer using existing knowledge without searching\n- **Course-specific questions**: Search first, then answer\n- **Complex queries**: Use multiple searches as needed (max 2)\n- **No meta-commentary**:\n - Provide direct answers only — no reasoning process, search explanations, or question-type analysis\n - Do not mention \"based on the search results\"\n\n\nAll responses must be:\n1. **Brief, Concise and focused** - Get to the point quickly\n2. **Educational** - Maintain instructional value\n3. **Clear** - Use accessible language\n4. **Example-supported** - Include relevant examples when they aid understanding\nProvide only the direct answer to what was asked.\n"

/-- The system content of lines 70-74: the static prompt, with the
conversation history appended only when it is non-empty (Python
truthiness: `None` and `""` both leave the prompt bare). -/
def buildSystemContent (conversationHistory : Option String) : String :=
  match conversationHistory with
  | some h =>
    if h == "" then SYSTEM_PROMPT
    else SYSTEM_PROMPT ++ "\n\nPrevious conversation:\n" ++ h
  | none => SYSTEM_PROMPT

/-- Python truthiness of the optional tool list (`if tools:`): true
exactly when a non-empty list was supplied. -/
def toolsTruthy (tools : Option (List ToolDef)) : Bool :=
  match tools with
  | some (_ :: _) => true
  | _ => false

/-- The first call's parameters (lines 77-86): the single user message,
the system content, and — only when a non-empty tool list is given —
the `tools` and `tool_choice` keys with automatic tool choice. -/
def initialParams (query : String) (conversationHistory : Option String)
    (tools : Option (List ToolDef)) : ApiParams :=
  { messages := [Message.user query]
    system := buildSystemContent conversationHistory
    tools := if toolsTruthy tools then some tools else none
    tool_choice := if toolsTruthy tools then some (some ToolChoice.auto) else none }

/-- `AIGenerator.generate_response` (lines 47-98): build the first
call's parameters, issue the first LLM call, and either enter tool
handling at round 0 (when the response's stop reason is `"tool_use"`
and a tool manager was supplied) or return the first content block's
text. -/
def generate_response (toolMgr : Option ToolExec) (query : String)
    (conversationHistory : Option String) (tools : Option (List ToolDef))
    (oracle : List Response) : RunResult :=
  let apiParams := initialParams query conversationHistory tools
  match oracle with
  | [] => ⟨Outcome.apiExhausted, [apiParams], [], 0⟩
  | response :: rest =>
    match toolMgr with
    | some tm =>
      if response.stop_reason == "tool_use" then
        let r := handleToolExecution tm apiParams.system apiParams.tools
          apiParams.tool_choice response apiParams.messages 0 rest
        ⟨r.outcome, apiParams :: r.calls, r.execs, r.rounds⟩
      else
        ⟨firstText response, [apiParams], [], 0⟩
    | none => ⟨firstText response, [apiParams], [], 0⟩

/-- Tool manager used by the concrete witness runs, mirroring the
repository test fixture whose `execute_tool` mock always succeeds. -/
def demoTool : ToolExec := fun _ _ => Except.ok "Tool result"

/-- Tool manager mirroring the failing-tool test fixture: the tool
named `bad` raises, every other tool succeeds. -/
def demoToolFail : ToolExec := fun name _ =>
  if name == "bad" then Except.error "Tool execution failed" else Except.ok "Tool result"

/-- A stubbed tool-use response, mirroring the repository test fixture. -/
def demoToolUseResponse : Response :=
  ⟨"tool_use", [CB.toolUse "search_course_content" "tool_call_1" [("query", "q1")]]⟩

/-- A stubbed tool-use response whose requested tool raises under
`demoToolFail`. -/
def demoBadToolResponse : Response :=
  ⟨"tool_use", [CB.toolUse "bad" "tool_call_2" [("query", "q2")]]⟩

/-- A stubbed plain-text response, mirroring the repository test fixture. -/
def demoTextResponse : Response := ⟨"end_turn", [CB.text "Final answer"]⟩

/-- The tool list used by the concrete witness runs. -/
def demoTools : List ToolDef := [⟨"search_course_content"⟩]


/-- A stubbed tool-use response whose first content block is text,
as the Anthropic API commonly interleaves text with tool requests. -/
def demoToolUseWithText : Response :=
  ⟨"tool_use", [CB.text "I will search",
    CB.toolUse "search_course_content" "tool_call_1" [("query", "q1")]]⟩

/-- A stubbed tool-use response requesting three invocations of which
the second raises under `demoToolFail`. -/
def demoMixedBatch : Response :=
  ⟨"tool_use", [CB.toolUse "search_course_content" "id_a" [("query", "qa")],
    CB.toolUse "bad" "id_b" [("query", "qb")],
    CB.toolUse "search_course_content" "id_c" [("query", "qc")]]⟩

end RagCore

namespace RagRetrieval

/-- Modelled from the spec: the metadata map attached to one indexed
chunk, of which result formatting reads the optional `course_title` and
`lesson_number` fields (missing fields are defensively defaulted). The
repository file `backend/search_tools.py` is absent from the sources;
only its tests are available. -/
structure DocMetadata where
  course_title : Option String
  lesson_number : Option Int
deriving DecidableEq, Repr

/-- Modelled from the spec: the `SearchResults` value of
`backend/vector_store.py` (absent from the sources), carrying
positionally aligned documents, metadata and distances, or an error. -/
structure SearchResults where
  documents : List String
  metadata : List DocMetadata
  distances : List Rat
  error : Option String
deriving DecidableEq, Repr

/-- Modelled from the spec: `SearchResults.empty(error_msg)` — an error
result with all lists empty. -/
def SearchResults.empty (errorMsg : String) : SearchResults :=
  ⟨[], [], [], some errorMsg⟩

/-- Modelled from the spec: `SearchResults.is_empty()` — whether the
document list is empty. -/
def SearchResults.is_empty (r : SearchResults) : Bool :=
  r.documents.isEmpty

/-- Modelled from the spec: the structured exact-match predicate handed
to the content index — a single-field `course_title` or `lesson_number`
predicate, or the conjunctive `$and` of the two single-field predicates. -/
inductive WhereClause where
  | courseTitle (title : String)
  | lessonNumber (n : Int)
  | andBoth (a b : WhereClause)
deriving DecidableEq, Repr

/-- Modelled from the spec: `VectorStore._build_filter(course_title,
lesson_number)` — a pure function returning no filter when both inputs
are absent, a single-field predicate when exactly one is present, and
the conjunctive predicate when both are. -/
def buildFilter : Option String → Option Int → Option WhereClause
  | none, none => none
  | some c, none => some (WhereClause.courseTitle c)
  | none, some n => some (WhereClause.lessonNumber n)
  | some c, some n =>
    some (WhereClause.andBoth (WhereClause.courseTitle c) (WhereClause.lessonNumber n))

/-- Modelled from the spec: one query issued to the underlying content
index — the free-text query, the result-count cap and the optional
structured filter. -/
structure IndexCall where
  query_texts : String
  n_results : Nat
  whereClause : Option WhereClause
deriving DecidableEq, Repr

/-- Raw hits returned by the content index: positionally aligned
documents, metadata and distances. -/
abbrev RawTriples := List String × List DocMetadata × List Rat

/-- Modelled from the spec: the similarity query with result wrapping
inside `VectorStore.search`, after course resolution succeeded or was
not needed. The underlying index is `indexQuery` (`Except.error` is a
raised exception); every exception is caught and converted to a
`"Search error: <message>"` result. Also returns the list of index
queries issued, for the no-query-on-unresolved-course property. -/
def searchWithTitle (indexQuery : IndexCall → Except String RawTriples)
    (maxResults : Nat) (query : String) (courseTitle : Option String)
    (lessonNumber : Option Int) (limit : Option Nat) :
    SearchResults × List IndexCall :=
  let call : IndexCall := ⟨query, limit.getD maxResults, buildFilter courseTitle lessonNumber⟩
  match indexQuery call with
  | Except.error e => (SearchResults.empty ("Search error: " ++ e), [call])
  | Except.ok (docs, metas, dists) => (⟨docs, metas, dists, none⟩, [call])

/-- Modelled from the spec: `VectorStore.search(query, course_name,
lesson_number, limit)`. When a course name is supplied it is resolved
by `resolve` (the nearest-match catalog lookup, which never raises and
maps lookup failure to `none`); an unresolvable course name returns the
error result `"No course found matching '<course_name>'"` immediately,
with no index query issued. -/
def VectorStore.search (resolve : String → Option String)
    (indexQuery : IndexCall → Except String RawTriples)
    (maxResults : Nat) (query : String) (courseName : Option String)
    (lessonNumber : Option Int) (limit : Option Nat) :
    SearchResults × List IndexCall :=
  match courseName with
  | some cn =>
    match resolve cn with
    | none => (SearchResults.empty ("No course found matching '" ++ cn ++ "'"), [])
    | some title => searchWithTitle indexQuery maxResults query (some title) lessonNumber limit
  | none => searchWithTitle indexQuery maxResults query none lessonNumber limit

/-- Modelled from the spec: the `SourceLabel` derived from one chunk's
metadata — `"<course_title>"`, or `"<course_title> - Lesson <n>"` when a
lesson number is present, with `"unknown"` substituted for a missing
course title. -/
def sourceLabel (meta : DocMetadata) : String :=
  let title := meta.course_title.getD "unknown"
  match meta.lesson_number with
  | some n => title ++ " - Lesson " ++ toString n
  | none => title

/-- Modelled from the spec: `CourseSearchTool._format_results` —
documents and metadata are zipped to the shorter length, each pair is
rendered as `"[<SourceLabel>]\n<document>"`, pairs are joined with a
blank line, and the labels of this call become the new source cache. -/
def formatResults (results : SearchResults) : String × List String :=
  let pairs := results.documents.zip results.metadata
  let formatted := pairs.map (fun p => "[" ++ sourceLabel p.2 ++ "]\n" ++ p.1)
  let sources := pairs.map (fun p => sourceLabel p.2)
  (String.intercalate "\n\n" formatted, sources)

/-- Modelled from the spec: `CourseSearchTool.execute(query,
course_name, lesson_number)`. The engine call is `searchFn`
(`Except.error` is a raised exception, caught here and converted to a
`"Search error: ..."` string, leaving the prior source cache in place).
An error result is returned verbatim and clears the source cache; an
empty result produces the `"No relevant content found..."` message with
the filter suffixes and clears the cache; otherwise the formatted text
is returned and the cache is replaced by this call's labels. Returns
the result string and the new source cache. -/
def CourseSearchTool.execute
    (searchFn : String → Option String → Option Int → Except String SearchResults)
    (lastSources : List String) (query : String) (courseName : Option String)
    (lessonNumber : Option Int) : String × List String :=
  match searchFn query courseName lessonNumber with
  | Except.error e => ("Search error: " ++ e, lastSources)
  | Except.ok results =>
    match results.error with
    | some err => (err, [])
    | none =>
      if results.documents.isEmpty then
        let courseInfo :=
          match courseName with
          | some c => " in course '" ++ c ++ "'"
          | none => ""
        let lessonInfo :=
          match lessonNumber with
          | some n => " in lesson " ++ toString n
          | none => ""
        ("No relevant content found" ++ courseInfo ++ lessonInfo ++ ".", [])
      else
        formatResults results

/-- Modelled from the spec: the registry state relevant to source
aggregation — each registered capability's name and its cached source
labels. -/
structure RegisteredTool where
  name : String
  last_sources : List String
deriving DecidableEq, Repr

/-- Modelled from the spec: `ToolManager` as its name-keyed table of
registered capabilities. -/
structure ToolManager where
  tools : List RegisteredTool
deriving DecidableEq, Repr

/-- Modelled from the spec: `ToolManager.get_last_sources()` —
concatenates the cached sources of every registered capability. -/
def ToolManager.get_last_sources (m : ToolManager) : List String :=
  (m.tools.map RegisteredTool.last_sources).flatten

/-- Modelled from the spec: `ToolManager.reset_sources()` — clears the
source cache of every registered capability. -/
def ToolManager.reset_sources (m : ToolManager) : ToolManager :=
  ⟨m.tools.map (fun t => ⟨t.name, []⟩)⟩


/-- Course resolver used by the concrete witness runs: no catalog match. -/
def demoResolveNone : String → Option String := fun _ => none

/-- Course resolver used by the concrete witness runs: every lookup
resolves to the full catalog title. -/
def demoResolveFull : String → Option String := fun _ => some "Full Course Title"

/-- Content index used by the concrete witness runs: every query raises. -/
def demoIndexError : IndexCall → Except String RawTriples :=
  fun _ => Except.error "Database error"

/-- Search engine stub returning an empty non-error result. -/
def demoSearchEmpty : String → Option String → Option Int → Except String SearchResults :=
  fun _ _ _ => Except.ok ⟨[], [], [], none⟩

/-- Search engine stub returning one hit with full metadata. -/
def demoSearchHit : String → Option String → Option Int → Except String SearchResults :=
  fun _ _ _ => Except.ok ⟨["Doc1"], [⟨some "Test Course", some 3⟩], [1], none⟩

/-- Search engine stub returning an error-flagged result. -/
def demoSearchError : String → Option String → Option Int → Except String SearchResults :=
  fun _ _ _ => Except.ok ⟨[], [], [], some "Database connection failed"⟩

end RagRetrieval

namespace RagCore

theorem executeToolBlocks_ok (tm : ToolExec) :
    ∀ (bs : List CB) (ex : List (String × ToolArgs)) (rs : List ToolResultBlock),
    executeToolBlocks tm bs = (ex, Except.ok rs) →
    ex = requestedInvocations bs ∧ rs.map ToolResultBlock.tool_use_id = requestedIds bs := by
  intro bs
  induction bs with
  | nil =>
    intro ex rs h
    simp [executeToolBlocks] at h
    simp [h.1, h.2, requestedInvocations, requestedIds]
  | cons b rest ih =>
    intro ex rs h
    cases b with
    | text s =>
      simp [executeToolBlocks] at h
      have := ih ex rs h
      simpa [requestedInvocations, requestedIds] using this
    | toolUse name id input =>
      rcases htm : tm name input with e | r
      · simp [executeToolBlocks, htm] at h
      · rcases hrec : executeToolBlocks tm rest with ⟨ex', res'⟩
        rcases res' with e' | rs'
        · simp [executeToolBlocks, htm, hrec] at h
        · simp [executeToolBlocks, htm, hrec] at h
          obtain ⟨hex, hrs⟩ := h
          have := ih ex' rs' (by rw [hrec])
          subst hex hrs
          simp [requestedInvocations, requestedIds, this.1, this.2]

theorem requestedIds_length :
    ∀ bs : List CB, (requestedIds bs).length = (requestedInvocations bs).length := by
  intro bs
  induction bs with
  | nil => rfl
  | cons b rest ih =>
    cases b <;> simp [requestedIds, requestedInvocations, ih]

theorem executeToolBlocks_fail (tm : ToolExec) (n id : String) (inp : ToolArgs) (e : String) :
    ∀ (pre post : List CB),
    (∀ p ∈ requestedInvocations pre, (tm p.1 p.2).isOk = true) →
    tm n inp = Except.error e →
    executeToolBlocks tm (pre ++ CB.toolUse n id inp :: post) =
      (requestedInvocations pre ++ [(n, inp)], Except.error e) := by
  intro pre
  induction pre with
  | nil =>
    intro post _ htm
    simp [executeToolBlocks, requestedInvocations, htm]
  | cons b rest ih =>
    intro post hok htm
    cases b with
    | text s =>
      simpa [executeToolBlocks, requestedInvocations] using
        ih post (by simpa [requestedInvocations] using hok) htm
    | toolUse n' id' inp' =>
      have hok' : (tm n' inp').isOk = true := by
        exact hok (n', inp') (by simp [requestedInvocations])
      rcases htm' : tm n' inp' with e' | r'
      · rw [htm'] at hok'; simp [Except.isOk, Except.toBool] at hok'
      · have hrest : ∀ p ∈ requestedInvocations rest, (tm p.1 p.2).isOk = true := by
          intro p hp
          exact hok p (by simp [requestedInvocations, hp])
        have := ih post hrest htm
        simp [executeToolBlocks, htm', this, requestedInvocations]

end RagCore

namespace RagCore

theorem handle_error_round0 (tm : ToolExec) (sys : String)
    (bt : Option (Option (List ToolDef))) (btc : Option (Option ToolChoice))
    (resp : Response) (base : List Message) (oracle : List Response)
    (ex : List (String × ToolArgs)) (e : String)
    (hexec : executeToolBlocks tm resp.content = (ex, Except.error e)) :
    handleToolExecution tm sys bt btc resp base 0 oracle =
      ⟨Outcome.raised e, [], ex, 1⟩ := by
  unfold handleToolExecution
  rw [hexec]
  rfl

theorem handle_error_round1 (tm : ToolExec) (sys : String)
    (bt : Option (Option (List ToolDef))) (btc : Option (Option ToolChoice))
    (resp : Response) (base : List Message) (oracle : List Response)
    (ex : List (String × ToolArgs)) (e : String)
    (hexec : executeToolBlocks tm resp.content = (ex, Except.error e)) :
    handleToolExecution tm sys bt btc resp base 1 oracle =
      ⟨Outcome.ok apologyMessage, [], ex, 1⟩ := by
  unfold handleToolExecution
  rw [hexec]
  rfl

theorem handle_ok_round1 (tm : ToolExec) (sys : String)
    (bt : Option (Option (List ToolDef))) (btc : Option (Option ToolChoice))
    (resp : Response) (base : List Message) (fr : Response) (oracleRest : List Response)
    (ex : List (String × ToolArgs)) (rs : List ToolResultBlock)
    (hexec : executeToolBlocks tm resp.content = (ex, Except.ok rs)) :
    handleToolExecution tm sys bt btc resp base 1 (fr :: oracleRest) =
      ⟨firstText fr,
        [⟨(base ++ [Message.assistant resp.content]) ++
            (if rs.isEmpty then [] else [Message.userToolResults rs]), sys, none, none⟩],
        ex, 1⟩ := by
  unfold handleToolExecution
  rw [hexec]
  by_cases h : rs.isEmpty <;> simp [h]

theorem handle_ok_round0_tooluse (tm : ToolExec) (sys : String)
    (bt : Option (Option (List ToolDef))) (btc : Option (Option ToolChoice))
    (resp : Response) (base : List Message) (nr : Response) (oracleRest : List Response)
    (ex : List (String × ToolArgs)) (rs : List ToolResultBlock)
    (hexec : executeToolBlocks tm resp.content = (ex, Except.ok rs))
    (hsr : nr.stop_reason = "tool_use") :
    handleToolExecution tm sys bt btc resp base 0 (nr :: oracleRest) =
      ⟨(handleToolExecution tm sys (some (getKey bt)) (some (getKey btc)) nr
          (base ++ [Message.assistant resp.content] ++
            (if rs.isEmpty then [] else [Message.userToolResults rs])) 1 oracleRest).outcome,
        ⟨base ++ [Message.assistant resp.content] ++
            (if rs.isEmpty then [] else [Message.userToolResults rs]), sys,
          some (getKey bt), some (getKey btc)⟩ ::
          (handleToolExecution tm sys (some (getKey bt)) (some (getKey btc)) nr
            (base ++ [Message.assistant resp.content] ++
              (if rs.isEmpty then [] else [Message.userToolResults rs])) 1 oracleRest).calls,
        ex ++ (handleToolExecution tm sys (some (getKey bt)) (some (getKey btc)) nr
          (base ++ [Message.assistant resp.content] ++
            (if rs.isEmpty then [] else [Message.userToolResults rs])) 1 oracleRest).execs,
        1 + (handleToolExecution tm sys (some (getKey bt)) (some (getKey btc)) nr
          (base ++ [Message.assistant resp.content] ++
            (if rs.isEmpty then [] else [Message.userToolResults rs])) 1 oracleRest).rounds⟩ := by
  conv_lhs => unfold handleToolExecution
  simp only [hexec, hsr]
  by_cases h : rs.isEmpty <;> simp [h]

theorem handle_ok_round0_text (tm : ToolExec) (sys : String)
    (bt : Option (Option (List ToolDef))) (btc : Option (Option ToolChoice))
    (resp : Response) (base : List Message) (nr : Response) (oracleRest : List Response)
    (ex : List (String × ToolArgs)) (rs : List ToolResultBlock)
    (hexec : executeToolBlocks tm resp.content = (ex, Except.ok rs))
    (hsr : nr.stop_reason ≠ "tool_use") :
    handleToolExecution tm sys bt btc resp base 0 (nr :: oracleRest) =
      ⟨firstText nr,
        [⟨(base ++ [Message.assistant resp.content]) ++
            (if rs.isEmpty then [] else [Message.userToolResults rs]), sys,
          some (getKey bt), some (getKey btc)⟩],
        ex, 1⟩ := by
  have hb : (nr.stop_reason == "tool_use") = false := by
    simpa using hsr
  conv_lhs => unfold handleToolExecution
  simp only [hexec, hb]
  by_cases h : rs.isEmpty <;> simp [h]

end RagCore

namespace RagCore

theorem generate_response_text_eq (tmO : Option ToolExec) (q : String)
    (h : Option String) (ts : Option (List ToolDef)) (r1 : Response) (rest : List Response)
    (hsr : r1.stop_reason ≠ "tool_use") :
    generate_response tmO q h ts (r1 :: rest) =
      ⟨firstText r1, [initialParams q h ts], [], 0⟩ := by
  cases tmO with
  | none => rfl
  | some tm =>
    have hb : (r1.stop_reason == "tool_use") = false := by simpa using hsr
    conv_lhs => unfold generate_response
    simp only [hb]
    rfl

theorem generate_response_none_eq (q : String)
    (h : Option String) (ts : Option (List ToolDef)) (r1 : Response) (rest : List Response) :
    generate_response none q h ts (r1 :: rest) =
      ⟨firstText r1, [initialParams q h ts], [], 0⟩ := rfl

theorem generate_response_tool_use_eq (tm : ToolExec) (q : String)
    (h : Option String) (ts : Option (List ToolDef)) (r1 : Response) (rest : List Response)
    (hsr : r1.stop_reason = "tool_use") :
    generate_response (some tm) q h ts (r1 :: rest) =
      ⟨(handleToolExecution tm (initialParams q h ts).system (initialParams q h ts).tools
          (initialParams q h ts).tool_choice r1 (initialParams q h ts).messages 0 rest).outcome,
        initialParams q h ts ::
          (handleToolExecution tm (initialParams q h ts).system (initialParams q h ts).tools
            (initialParams q h ts).tool_choice r1 (initialParams q h ts).messages 0 rest).calls,
        (handleToolExecution tm (initialParams q h ts).system (initialParams q h ts).tools
          (initialParams q h ts).tool_choice r1 (initialParams q h ts).messages 0 rest).execs,
        (handleToolExecution tm (initialParams q h ts).system (initialParams q h ts).tools
          (initialParams q h ts).tool_choice r1 (initialParams q h ts).messages 0 rest).rounds⟩ := by
  have hb : (r1.stop_reason == "tool_use") = true := by simp [hsr]
  conv_lhs => unfold generate_response
  simp only [hb]
  rfl

theorem handle_rounds_at_one (tm : ToolExec) (sys : String)
    (bt : Option (Option (List ToolDef))) (btc : Option (Option ToolChoice))
    (resp : Response) (base : List Message) (oracle : List Response) :
    (handleToolExecution tm sys bt btc resp base 1 oracle).rounds = 1 := by
  unfold handleToolExecution
  rcases hexec : executeToolBlocks tm resp.content with ⟨ex, res⟩
  rcases res with e | rs
  · simp [hexec]
  · cases oracle <;> simp [hexec]

theorem handle_rounds_le_two (tm : ToolExec) (sys : String)
    (bt : Option (Option (List ToolDef))) (btc : Option (Option ToolChoice))
    (resp : Response) (base : List Message) (cr : Nat) (oracle : List Response) :
    (handleToolExecution tm sys bt btc resp base cr oracle).rounds ≤ 2 := by
  cases cr with
  | zero =>
    conv_lhs => unfold handleToolExecution
    rcases hexec : executeToolBlocks tm resp.content with ⟨ex, res⟩
    rcases res with e | rs
    · simp [hexec]
    · rcases oracle with _ | ⟨nr, oracleRest⟩
      · simp [hexec]
      · by_cases hb : (nr.stop_reason == "tool_use") = true
        · simp [hexec, hb, handle_rounds_at_one]
        · simp at hb
          have hb' : (nr.stop_reason == "tool_use") = false := by simpa using hb
          simp [hexec, hb']
  | succ n =>
    conv_lhs => unfold handleToolExecution
    rcases hexec : executeToolBlocks tm resp.content with ⟨ex, res⟩
    rcases res with e | rs
    · simp [hexec]
    · cases oracle <;> simp [hexec]

theorem generate_rounds_le_two (tmO : Option ToolExec) (q : String)
    (h : Option String) (ts : Option (List ToolDef)) (oracle : List Response) :
    (generate_response tmO q h ts oracle).rounds ≤ 2 := by
  rcases oracle with _ | ⟨r1, rest⟩
  · simp [generate_response]
  · rcases tmO with _ | tm
    · simp [generate_response_none_eq]
    · by_cases hsr : r1.stop_reason = "tool_use"
      · rw [generate_response_tool_use_eq tm q h ts r1 rest hsr]
        exact handle_rounds_le_two _ _ _ _ _ _ _ _
      · rw [generate_response_text_eq (some tm) q h ts r1 rest hsr]
        simp

end RagCore

namespace RagCore

/-- C1: at most 2 rounds of tool execution occur for any orchestration
call; whenever the LLM still requests tools at round 1 (and both tool
batches execute without raising), exactly 3 LLM calls are made, the 3rd
call's parameters contain neither the `tools` nor the `tool_choice`
key, and the 3rd response's first text block is returned
unconditionally, whatever that response's stop reason. -/
theorem c1_round_cap_three_calls :
    (∀ (tmO : Option ToolExec) (q : String) (h : Option String)
      (ts : Option (List ToolDef)) (oracle : List Response),
      (generate_response tmO q h ts oracle).rounds ≤ 2) ∧
    (∀ (tm : ToolExec) (q : String) (h : Option String) (ts : Option (List ToolDef))
      (r1 r2 r3 : Response) (rest : List Response)
      (ex1 ex2 : List (String × ToolArgs)) (rs1 rs2 : List ToolResultBlock),
      r1.stop_reason = "tool_use" →
      executeToolBlocks tm r1.content = (ex1, Except.ok rs1) →
      r2.stop_reason = "tool_use" →
      executeToolBlocks tm r2.content = (ex2, Except.ok rs2) →
      (generate_response (some tm) q h ts (r1 :: r2 :: r3 :: rest)).calls.length = 3 ∧
      (∃ p : ApiParams,
        (generate_response (some tm) q h ts (r1 :: r2 :: r3 :: rest)).calls.drop 2 = [p] ∧
        p.tools = none ∧ p.tool_choice = none) ∧
      (generate_response (some tm) q h ts (r1 :: r2 :: r3 :: rest)).outcome = firstText r3) := by
  constructor
  · exact generate_rounds_le_two
  · intro tm q h ts r1 r2 r3 rest ex1 ex2 rs1 rs2 hsr1 hexec1 hsr2 hexec2
    rw [generate_response_tool_use_eq tm q h ts r1 (r2 :: r3 :: rest) hsr1]
    rw [handle_ok_round0_tooluse tm _ _ _ r1 _ r2 (r3 :: rest) ex1 rs1 hexec1 hsr2]
    rw [handle_ok_round1 tm _ _ _ r2 _ r3 rest ex2 rs2 hexec2]
    refine ⟨rfl, ⟨_, rfl, rfl, rfl⟩, rfl⟩

/-- C2: a tool invocation raising during round 0 propagates out of the
orchestrator unchanged, while a tool invocation raising during round 1
is swallowed and the fixed apology string is returned (so nothing is
raised in that case). -/
theorem c2_fault_policy :
    (∀ (tm : ToolExec) (q : String) (h : Option String) (ts : Option (List ToolDef))
      (r1 : Response) (rest : List Response) (ex : List (String × ToolArgs)) (e : String),
      r1.stop_reason = "tool_use" →
      executeToolBlocks tm r1.content = (ex, Except.error e) →
      generate_response (some tm) q h ts (r1 :: rest) =
        ⟨Outcome.raised e, [initialParams q h ts], ex, 1⟩) ∧
    (∀ (tm : ToolExec) (q : String) (h : Option String) (ts : Option (List ToolDef))
      (r1 r2 : Response) (rest : List Response)
      (ex1 ex2 : List (String × ToolArgs)) (rs1 : List ToolResultBlock) (e : String),
      r1.stop_reason = "tool_use" →
      executeToolBlocks tm r1.content = (ex1, Except.ok rs1) →
      r2.stop_reason = "tool_use" →
      executeToolBlocks tm r2.content = (ex2, Except.error e) →
      (generate_response (some tm) q h ts (r1 :: r2 :: rest)).outcome =
        Outcome.ok "I encountered an issue while searching for additional information. Please try rephrasing your question." ∧
      (generate_response (some tm) q h ts (r1 :: r2 :: rest)).calls.length = 2) := by
  constructor
  · intro tm q h ts r1 rest ex e hsr1 hexec1
    rw [generate_response_tool_use_eq tm q h ts r1 rest hsr1]
    rw [handle_error_round0 tm _ _ _ r1 _ rest ex e hexec1]
  · intro tm q h ts r1 r2 rest ex1 ex2 rs1 e hsr1 hexec1 hsr2 hexec2
    rw [generate_response_tool_use_eq tm q h ts r1 (r2 :: rest) hsr1]
    rw [handle_ok_round0_tooluse tm _ _ _ r1 _ r2 rest ex1 rs1 hexec1 hsr2]
    rw [handle_error_round1 tm _ _ _ r2 _ rest ex2 e hexec2]
    exact ⟨rfl, rfl⟩

/-- C4: when the first LLM response is plain text (its stop reason is
not tool use), exactly one LLM call is made, no tool invocation is
executed, and the first content block's text is returned. -/
theorem c4_direct_text :
    ∀ (tmO : Option ToolExec) (q : String) (h : Option String)
      (ts : Option (List ToolDef)) (r1 : Response) (rest : List Response),
      r1.stop_reason ≠ "tool_use" →
      generate_response tmO q h ts (r1 :: rest) =
        ⟨firstText r1, [initialParams q h ts], [], 0⟩ ∧
      (∀ (s : String) (tail : List CB), r1.content = CB.text s :: tail →
        (generate_response tmO q h ts (r1 :: rest)).outcome = Outcome.ok s) := by
  intro tmO q h ts r1 rest hsr
  refine ⟨generate_response_text_eq tmO q h ts r1 rest hsr, ?_⟩
  intro s tail hc
  rw [generate_response_text_eq tmO q h ts r1 rest hsr]
  simp [firstText, hc]

/-- C9: when the first LLM response requests tool use but no tool
manager was supplied, no tool is executed and no further LLM call is
made; the first content block's text is returned directly. -/
theorem c9_tool_use_without_manager :
    ∀ (q : String) (h : Option String) (ts : Option (List ToolDef))
      (r1 : Response) (rest : List Response),
      r1.stop_reason = "tool_use" →
      generate_response none q h ts (r1 :: rest) =
        ⟨firstText r1, [initialParams q h ts], [], 0⟩ ∧
      (∀ (s : String) (tail : List CB), r1.content = CB.text s :: tail →
        (generate_response none q h ts (r1 :: rest)).outcome = Outcome.ok s) := by
  intro q h ts r1 rest _
  refine ⟨generate_response_none_eq q h ts r1 rest, ?_⟩
  intro s tail hc
  rw [generate_response_none_eq q h ts r1 rest]
  simp [firstText, hc]

end RagCore

namespace RagCore

/-- C3: when tool use occurs at round 0 only (a non-empty batch is
requested and the follow-up LLM response is plain text), exactly 2 LLM
calls are made; exactly the requested invocations are executed,
serially in the listed order; all tool outputs are appended as one
combined message keyed by their invocation ids before the second LLM
call; and the second call still offers the tools. -/
theorem c3_single_round_tool_use :
    ∀ (tm : ToolExec) (q : String) (h : Option String) (tss : List ToolDef)
      (r1 r2 : Response) (rest : List Response)
      (ex1 : List (String × ToolArgs)) (rs1 : List ToolResultBlock),
      tss ≠ [] →
      r1.stop_reason = "tool_use" →
      requestedInvocations r1.content ≠ [] →
      executeToolBlocks tm r1.content = (ex1, Except.ok rs1) →
      r2.stop_reason ≠ "tool_use" →
      generate_response (some tm) q h (some tss) (r1 :: r2 :: rest) =
        ⟨firstText r2,
          [initialParams q h (some tss),
            ⟨[Message.user q, Message.assistant r1.content, Message.userToolResults rs1],
              buildSystemContent h, some (some tss), some (some ToolChoice.auto)⟩],
          requestedInvocations r1.content, 1⟩ ∧
      rs1.map ToolResultBlock.tool_use_id = requestedIds r1.content := by
  intro tm q h tss r1 r2 rest ex1 rs1 htss hsr1 hreq hexec1 hsr2
  obtain ⟨hex, hids⟩ := executeToolBlocks_ok tm r1.content ex1 rs1 hexec1
  refine ⟨?_, hids⟩
  have hrs1 : rs1 ≠ [] := by
    intro hnil
    apply hreq
    have hlen := congrArg List.length hids
    rw [hnil, requestedIds_length] at hlen
    simpa using hlen.symm
  rw [generate_response_tool_use_eq tm q h (some tss) r1 (r2 :: rest) hsr1]
  rw [handle_ok_round0_text tm _ _ _ r1 _ r2 rest ex1 rs1 hexec1 hsr2]
  rcases tss with _ | ⟨t0, ttail⟩
  · exact absurd rfl htss
  · subst hex
    simp [initialParams, toolsTruthy, getKey, hrs1]

/-- C10: when a tool invocation raises (in either round), the
invocations listed after the failing one in the same LLM message are
never executed, no tool-result message of that batch is ever sent, and
no further LLM call is made within the orchestration call: the full
run is pinned down, ending at the failure. -/
theorem c10_batch_abandoned :
    (∀ (tm : ToolExec) (q : String) (h : Option String) (ts : Option (List ToolDef))
      (r1 : Response) (rest : List Response) (pre post : List CB)
      (n id : String) (inp : ToolArgs) (e : String),
      r1.stop_reason = "tool_use" →
      r1.content = pre ++ CB.toolUse n id inp :: post →
      (∀ p ∈ requestedInvocations pre, (tm p.1 p.2).isOk = true) →
      tm n inp = Except.error e →
      generate_response (some tm) q h ts (r1 :: rest) =
        ⟨Outcome.raised e, [initialParams q h ts],
          requestedInvocations pre ++ [(n, inp)], 1⟩) ∧
    (∀ (tm : ToolExec) (q : String) (h : Option String) (ts : Option (List ToolDef))
      (r1 r2 : Response) (rest : List Response)
      (ex1 : List (String × ToolArgs)) (rs1 : List ToolResultBlock)
      (pre post : List CB) (n id : String) (inp : ToolArgs) (e : String),
      r1.stop_reason = "tool_use" →
      executeToolBlocks tm r1.content = (ex1, Except.ok rs1) →
      r2.stop_reason = "tool_use" →
      r2.content = pre ++ CB.toolUse n id inp :: post →
      (∀ p ∈ requestedInvocations pre, (tm p.1 p.2).isOk = true) →
      tm n inp = Except.error e →
      generate_response (some tm) q h ts (r1 :: r2 :: rest) =
        ⟨Outcome.ok apologyMessage,
          [initialParams q h ts,
            ⟨[Message.user q] ++ [Message.assistant r1.content] ++
                (if rs1.isEmpty then [] else [Message.userToolResults rs1]),
              buildSystemContent h, some (getKey (initialParams q h ts).tools),
              some (getKey (initialParams q h ts).tool_choice)⟩],
          ex1 ++ (requestedInvocations pre ++ [(n, inp)]), 2⟩) := by
  constructor
  · intro tm q h ts r1 rest pre post n id inp e hsr1 hc hok htm
    have hfail : executeToolBlocks tm r1.content =
        (requestedInvocations pre ++ [(n, inp)], Except.error e) := by
      rw [hc]; exact executeToolBlocks_fail tm n id inp e pre post hok htm
    rw [generate_response_tool_use_eq tm q h ts r1 rest hsr1]
    rw [handle_error_round0 tm _ _ _ r1 _ rest _ e hfail]
  · intro tm q h ts r1 r2 rest ex1 rs1 pre post n id inp e hsr1 hexec1 hsr2 hc2 hok htm
    have hfail : executeToolBlocks tm r2.content =
        (requestedInvocations pre ++ [(n, inp)], Except.error e) := by
      rw [hc2]; exact executeToolBlocks_fail tm n id inp e pre post hok htm
    rw [generate_response_tool_use_eq tm q h ts r1 (r2 :: rest) hsr1]
    rw [handle_ok_round0_tooluse tm _ _ _ r1 _ r2 rest ex1 rs1 hexec1 hsr2]
    rw [handle_error_round1 tm _ _ _ r2 _ rest _ e hfail]
    rfl

end RagCore

namespace RagCore

/-- Witness for C1 on the two-rounds-then-forced-final oracle. -/
theorem c1_witness :
    (generate_response (some demoTool) "Q" none (some demoTools)
      [demoToolUseResponse, demoToolUseResponse, demoTextResponse]).calls.length = 3 ∧
    (∃ p : ApiParams,
      (generate_response (some demoTool) "Q" none (some demoTools)
        [demoToolUseResponse, demoToolUseResponse, demoTextResponse]).calls.drop 2 = [p] ∧
      p.tools = none ∧ p.tool_choice = none) ∧
    (generate_response (some demoTool) "Q" none (some demoTools)
      [demoToolUseResponse, demoToolUseResponse, demoTextResponse]).outcome =
      firstText demoTextResponse :=
  c1_round_cap_three_calls.2 demoTool "Q" none (some demoTools)
    demoToolUseResponse demoToolUseResponse demoTextResponse []
    [("search_course_content", [("query", "q1")])]
    [("search_course_content", [("query", "q1")])]
    [⟨"tool_call_1", "Tool result"⟩] [⟨"tool_call_1", "Tool result"⟩]
    rfl rfl rfl rfl

/-- Witness for C2 on a failing round-0 batch and a failing round-1 batch. -/
theorem c2_witness :
    generate_response (some demoToolFail) "Q" none (some demoTools) [demoBadToolResponse] =
      ⟨Outcome.raised "Tool execution failed", [initialParams "Q" none (some demoTools)],
        [("bad", [("query", "q2")])], 1⟩ ∧
    ((generate_response (some demoToolFail) "Q" none (some demoTools)
        [demoToolUseResponse, demoBadToolResponse]).outcome =
      Outcome.ok "I encountered an issue while searching for additional information. Please try rephrasing your question." ∧
     (generate_response (some demoToolFail) "Q" none (some demoTools)
        [demoToolUseResponse, demoBadToolResponse]).calls.length = 2) :=
  ⟨c2_fault_policy.1 demoToolFail "Q" none (some demoTools) demoBadToolResponse []
      [("bad", [("query", "q2")])] "Tool execution failed" rfl rfl,
    c2_fault_policy.2 demoToolFail "Q" none (some demoTools)
      demoToolUseResponse demoBadToolResponse []
      [("search_course_content", [("query", "q1")])] [("bad", [("query", "q2")])]
      [⟨"tool_call_1", "Tool result"⟩] "Tool execution failed" rfl rfl rfl rfl⟩

/-- Witness for C3 on a single-round run whose follow-up is plain text. -/
theorem c3_witness :
    generate_response (some demoTool) "Q" none (some demoTools)
      [demoToolUseResponse, demoTextResponse] =
      ⟨firstText demoTextResponse,
        [initialParams "Q" none (some demoTools),
          ⟨[Message.user "Q", Message.assistant demoToolUseResponse.content,
            Message.userToolResults [⟨"tool_call_1", "Tool result"⟩]],
            buildSystemContent none, some (some demoTools), some (some ToolChoice.auto)⟩],
        requestedInvocations demoToolUseResponse.content, 1⟩ ∧
    [ToolResultBlock.mk "tool_call_1" "Tool result"].map ToolResultBlock.tool_use_id =
      requestedIds demoToolUseResponse.content :=
  c3_single_round_tool_use demoTool "Q" none demoTools demoToolUseResponse demoTextResponse []
    [("search_course_content", [("query", "q1")])] [⟨"tool_call_1", "Tool result"⟩]
    (by decide) rfl (by decide) rfl (by decide)

/-- Witness for C4 on a plain-text first response. -/
theorem c4_witness :
    generate_response (some demoTool) "Q" none (some demoTools) [demoTextResponse] =
      ⟨firstText demoTextResponse, [initialParams "Q" none (some demoTools)], [], 0⟩ ∧
    (∀ (s : String) (tail : List CB), demoTextResponse.content = CB.text s :: tail →
      (generate_response (some demoTool) "Q" none (some demoTools)
        [demoTextResponse]).outcome = Outcome.ok s) :=
  c4_direct_text (some demoTool) "Q" none (some demoTools) demoTextResponse [] (by decide)

/-- Witness for C9 on a tool-use response processed without a tool manager. -/
theorem c9_witness :
    generate_response none "Q" none (some demoTools) [demoToolUseWithText] =
      ⟨firstText demoToolUseWithText, [initialParams "Q" none (some demoTools)], [], 0⟩ ∧
    (∀ (s : String) (tail : List CB), demoToolUseWithText.content = CB.text s :: tail →
      (generate_response none "Q" none (some demoTools) [demoToolUseWithText]).outcome =
        Outcome.ok s) :=
  c9_tool_use_without_manager "Q" none (some demoTools) demoToolUseWithText [] rfl

/-- Witness for C10 on a three-invocation batch whose second invocation
raises, in each round. -/
theorem c10_witness :
    generate_response (some demoToolFail) "Q" none (some demoTools) [demoMixedBatch] =
      ⟨Outcome.raised "Tool execution failed", [initialParams "Q" none (some demoTools)],
        requestedInvocations [CB.toolUse "search_course_content" "id_a" [("query", "qa")]] ++
          [("bad", [("query", "qb")])], 1⟩ ∧
    generate_response (some demoToolFail) "Q" none (some demoTools)
      [demoToolUseResponse, demoMixedBatch] =
      ⟨Outcome.ok apologyMessage,
        [initialParams "Q" none (some demoTools),
          ⟨[Message.user "Q"] ++ [Message.assistant demoToolUseResponse.content] ++
              (if ([⟨"tool_call_1", "Tool result"⟩] : List ToolResultBlock).isEmpty then []
                else [Message.userToolResults [⟨"tool_call_1", "Tool result"⟩]]),
            buildSystemContent none,
            some (getKey (initialParams "Q" none (some demoTools)).tools),
            some (getKey (initialParams "Q" none (some demoTools)).tool_choice)⟩],
        [("search_course_content", [("query", "q1")])] ++
          (requestedInvocations [CB.toolUse "search_course_content" "id_a" [("query", "qa")]] ++
            [("bad", [("query", "qb")])]), 2⟩ :=
  ⟨c10_batch_abandoned.1 demoToolFail "Q" none (some demoTools) demoMixedBatch []
      [CB.toolUse "search_course_content" "id_a" [("query", "qa")]]
      [CB.toolUse "search_course_content" "id_c" [("query", "qc")]]
      "bad" "id_b" [("query", "qb")] "Tool execution failed"
      rfl rfl (by decide) rfl,
    c10_batch_abandoned.2 demoToolFail "Q" none (some demoTools)
      demoToolUseResponse demoMixedBatch []
      [("search_course_content", [("query", "q1")])] [⟨"tool_call_1", "Tool result"⟩]
      [CB.toolUse "search_course_content" "id_a" [("query", "qa")]]
      [CB.toolUse "search_course_content" "id_c" [("query", "qc")]]
      "bad" "id_b" [("query", "qb")] "Tool execution failed"
      rfl rfl rfl rfl (by decide) rfl⟩

end RagCore

namespace RagRetrieval

/-- C5: the search entry point never raises — an unresolvable course
filter yields the error result `"No course found matching '<filter>'"`
with all lists empty and no index query issued, and every exception of
the underlying index (on either the filtered or the unfiltered path) is
caught and converted to a `"Search error: <message>"` error result. -/
theorem c5_search_never_raises :
    (∀ (resolve : String → Option String) (idx : IndexCall → Except String RawTriples)
      (maxr : Nat) (q cn : String) (ln : Option Int) (lim : Option Nat),
      resolve cn = none →
      VectorStore.search resolve idx maxr q (some cn) ln lim =
        (⟨[], [], [], some ("No course found matching '" ++ cn ++ "'")⟩, [])) ∧
    (∀ (resolve : String → Option String) (idx : IndexCall → Except String RawTriples)
      (maxr : Nat) (q cn title msg : String) (ln : Option Int) (lim : Option Nat),
      resolve cn = some title →
      idx ⟨q, lim.getD maxr, buildFilter (some title) ln⟩ = Except.error msg →
      VectorStore.search resolve idx maxr q (some cn) ln lim =
        (⟨[], [], [], some ("Search error: " ++ msg)⟩,
          [⟨q, lim.getD maxr, buildFilter (some title) ln⟩])) ∧
    (∀ (resolve : String → Option String) (idx : IndexCall → Except String RawTriples)
      (maxr : Nat) (q msg : String) (ln : Option Int) (lim : Option Nat),
      idx ⟨q, lim.getD maxr, buildFilter none ln⟩ = Except.error msg →
      VectorStore.search resolve idx maxr q none ln lim =
        (⟨[], [], [], some ("Search error: " ++ msg)⟩,
          [⟨q, lim.getD maxr, buildFilter none ln⟩])) := by
  refine ⟨?_, ?_, ?_⟩
  · intro resolve idx maxr q cn ln lim hres
    simp [VectorStore.search, hres, SearchResults.empty]
  · intro resolve idx maxr q cn title msg ln lim hres hidx
    simp [VectorStore.search, hres, searchWithTitle, hidx, SearchResults.empty]
  · intro resolve idx maxr q msg ln lim hidx
    simp [VectorStore.search, searchWithTitle, hidx, SearchResults.empty]

/-- C6: the filter builder is a pure function returning no filter,
a single-field predicate, or the conjunctive predicate, according to
which of the two inputs are present. -/
theorem c6_build_filter : ∀ (c : String) (n : Int),
    buildFilter none none = none ∧
    buildFilter (some c) none = some (WhereClause.courseTitle c) ∧
    buildFilter none (some n) = some (WhereClause.lessonNumber n) ∧
    buildFilter (some c) (some n) =
      some (WhereClause.andBoth (WhereClause.courseTitle c) (WhereClause.lessonNumber n)) :=
  fun _ _ => ⟨rfl, rfl, rfl, rfl⟩

/-- C7: on an empty non-error result the tool returns the
`"No relevant content found"` message, suffixed first with the course
filter and then with the lesson filter when supplied, with a closing
period; in particular course filter X with lesson 5 yields exactly
`"No relevant content found in course 'X' in lesson 5."`. -/
theorem c7_empty_result_message :
    (∀ (searchFn : String → Option String → Option Int → Except String SearchResults)
      (prior : List String) (q : String) (cn : Option String) (ln : Option Int)
      (results : SearchResults),
      searchFn q cn ln = Except.ok results →
      results.error = none →
      results.documents = [] →
      (CourseSearchTool.execute searchFn prior q cn ln).1 =
        "No relevant content found" ++
          (match cn with | some c => " in course '" ++ c ++ "'" | none => "") ++
          (match ln with | some n => " in lesson " ++ toString n | none => "") ++ ".") ∧
    (∀ (prior : List String) (q : String),
      CourseSearchTool.execute (fun _ _ _ => Except.ok ⟨[], [], [], none⟩) prior q
        (some "X") (some 5) =
        ("No relevant content found in course 'X' in lesson 5.", [])) := by
  constructor
  · intro searchFn prior q cn ln results hs herr hdocs
    simp [CourseSearchTool.execute, hs, herr, hdocs]
  · intro prior q
    rfl

/-- C8: each successful non-empty call replaces the source cache with
exactly that call's labels, independently of the prior cache; an empty
or error result sets the cache to the empty list; and resetting the
registry leaves the aggregated sources and every registered
capability's cache empty. -/
theorem c8_source_cache :
    (∀ (searchFn : String → Option String → Option Int → Except String SearchResults)
      (prior : List String) (q : String) (cn : Option String) (ln : Option Int)
      (results : SearchResults),
      searchFn q cn ln = Except.ok results →
      results.error = none →
      results.documents ≠ [] →
      (CourseSearchTool.execute searchFn prior q cn ln).2 = (formatResults results).2) ∧
    (∀ (searchFn : String → Option String → Option Int → Except String SearchResults)
      (prior : List String) (q : String) (cn : Option String) (ln : Option Int)
      (results : SearchResults),
      searchFn q cn ln = Except.ok results →
      (results.error.isSome = true ∨ results.documents = []) →
      (CourseSearchTool.execute searchFn prior q cn ln).2 = []) ∧
    (∀ m : ToolManager, m.reset_sources.get_last_sources = [] ∧
      ∀ t ∈ m.reset_sources.tools, t.last_sources = []) := by
  refine ⟨?_, ?_, ?_⟩
  · intro searchFn prior q cn ln results hs herr hdocs
    simp [CourseSearchTool.execute, hs, herr, hdocs]
  · intro searchFn prior q cn ln results hs herr
    obtain ⟨docs, metas, dists, err⟩ := results
    rcases err with _ | e
    · rcases herr with herr | herr
      · simp at herr
      · simp only at herr
        subst herr
        simp [CourseSearchTool.execute, hs]
    · simp [CourseSearchTool.execute, hs]
  · intro m
    constructor
    · simp [ToolManager.reset_sources, ToolManager.get_last_sources, List.map_map]
    · intro t ht
      simp [ToolManager.reset_sources] at ht
      obtain ⟨t', _, rfl⟩ := ht
      rfl

/-- Witness for C5 on the unresolvable-course and raising-index stubs. -/
theorem c5_witness :
    VectorStore.search demoResolveNone demoIndexError 5 "test query"
      (some "Unknown Course") none none =
      (⟨[], [], [], some "No course found matching 'Unknown Course'"⟩, []) ∧
    VectorStore.search demoResolveFull demoIndexError 5 "test query"
      (some "Partial") none none =
      (⟨[], [], [], some "Search error: Database error"⟩,
        [⟨"test query", 5, buildFilter (some "Full Course Title") none⟩]) ∧
    VectorStore.search demoResolveNone demoIndexError 5 "test query" none (some 2) none =
      (⟨[], [], [], some "Search error: Database error"⟩,
        [⟨"test query", 5, buildFilter none (some 2)⟩]) :=
  ⟨c5_search_never_raises.1 demoResolveNone demoIndexError 5 "test query"
      "Unknown Course" none none rfl,
    c5_search_never_raises.2.1 demoResolveFull demoIndexError 5 "test query"
      "Partial" "Full Course Title" "Database error" none none rfl rfl,
    c5_search_never_raises.2.2 demoResolveNone demoIndexError 5 "test query"
      "Database error" (some 2) none rfl⟩

/-- Witness for C7 on an empty result with both filters supplied. -/
theorem c7_witness :
    (CourseSearchTool.execute demoSearchEmpty ["old label"] "q" (some "X") (some 5)).1 =
      "No relevant content found in course 'X' in lesson 5." ∧
    CourseSearchTool.execute (fun _ _ _ => Except.ok ⟨[], [], [], none⟩) ["old label"] "q"
      (some "X") (some 5) =
      ("No relevant content found in course 'X' in lesson 5.", []) :=
  ⟨c7_empty_result_message.1 demoSearchEmpty ["old label"] "q" (some "X") (some 5)
      ⟨[], [], [], none⟩ rfl rfl rfl,
    c7_empty_result_message.2 ["old label"] "q"⟩

/-- Witness for C8 on a hit, an error result, and a registry reset. -/
theorem c8_witness :
    (CourseSearchTool.execute demoSearchHit ["old label"] "q" none none).2 =
      (formatResults ⟨["Doc1"], [⟨some "Test Course", some 3⟩], [1], none⟩).2 ∧
    (CourseSearchTool.execute demoSearchError ["old label"] "q" none none).2 = [] ∧
    ((ToolManager.mk [⟨"search_course_content", ["S1"]⟩]).reset_sources.get_last_sources = [] ∧
      ∀ t ∈ (ToolManager.mk
        [⟨"search_course_content", ["S1"]⟩]).reset_sources.tools, t.last_sources = []) :=
  ⟨c8_source_cache.1 demoSearchHit ["old label"] "q" none none
      ⟨["Doc1"], [⟨some "Test Course", some 3⟩], [1], none⟩ rfl rfl (by decide),
    c8_source_cache.2.1 demoSearchError ["old label"] "q" none none
      ⟨[], [], [], some "Database connection failed"⟩ rfl (Or.inl rfl),
    c8_source_cache.2.2 (ToolManager.mk [⟨"search_course_content", ["S1"]⟩])⟩

end RagRetrieval
